import Mathlib

/-
  Verification development for the pretix-multisafepay payment plugin.

  The definitions below are a shallow embedding of the code in
  src/pretix_multisafepay/payment.py.  Python dictionaries holding JSON
  documents are modelled by the inductive type Json below; per-event
  configuration (the pretix SettingsSandbox) is modelled by the Settings
  structure, whose flag field plays the role of
  settings.get("<key>", as_type=bool).
-/

namespace PretixMultisafepay

/-- JSON documents, as stored in payment.info / refund.info and exchanged
with the MultiSafepay gateway. -/
inductive Json where
  | str (s : String)
  | num (n : ℤ)
  | bool (b : Bool)
  | null
  | arr (xs : List Json)
  | obj (fields : List (String × Json))

/-- First value bound to a key in a JSON object field list
(Python dict lookup d.get(k)). -/
def lookupKey : List (String × Json) → String → Option Json
  | [], _ => none
  | p :: t, k => if p.1 == k then some p.2 else lookupKey t k

/-- Python membership test (k in d) for a dict field list. -/
def hasKey : List (String × Json) → String → Bool
  | [], _ => false
  | p :: t, k => p.1 == k || hasKey t k

/-- Helper for modelling Python dict assignment: rewrite one entry. -/
def replaceEntry (k : String) (v : Json) (p : String × Json) : String × Json :=
  if p.1 == k then (k, v) else p

/-- Python dict assignment d[k] = v: replace the value in place when the key
is present (preserving insertion order), append the pair otherwise. -/
def setKey (fs : List (String × Json)) (k : String) (v : Json) : List (String × Json) :=
  if hasKey fs k then fs.map (replaceEntry k v) else fs ++ [(k, v)]

/-- Per-event configuration: the _enabled master switch plus the boolean
settings store consulted through settings.get("method_...", as_type=bool). -/
structure Settings where
  _enabled : Bool
  flag : String → Bool

/-- The slice of a pretix Order consumed by the plugin. -/
structure Order where
  code : String
  secret : String
  locale : String

/-- The slice of a pretix OrderPayment consumed by the plugin. -/
structure OrderPayment where
  amount : ℚ
  localId : ℕ

/-- The slice of a Django session consumed by the plugin. -/
structure Session where
  iframe_session : Bool
  payment_multisafepay_order_secret : String

/-- The slice of a Django HttpRequest consumed by the plugin. -/
structure HttpRequest where
  session : Session

/- ------------------------------------------------------------------
   get_locale (payment.py lines 509-517)
   ------------------------------------------------------------------ -/

/-- The gateway locale whitelist from MultisafepayMethod.get_locale. -/
def multisafepay_locales : List String := ["nl", "en"]

/-- MultisafepayMethod.get_locale: keep the first two characters of the
language tag when they are a supported locale, else fall back to "en". -/
def get_locale (language : String) : String :=
  if multisafepay_locales.contains (language.take 2) then language.take 2 else "en"

/- ------------------------------------------------------------------
   MultisafepayCC brand/wallet lists and enablement (payment.py 668-707)
   ------------------------------------------------------------------ -/

/-- MultisafepayCC.payment_methods: card-brand codes accumulated from the
per-brand configuration flags, in source order. -/
def MultisafepayCC.payment_methods (s : Settings) : List String :=
  (if s.flag "method_visa" then ["VISA"] else []) ++
  (if s.flag "method_diners" then ["DINERS"] else []) ++
  (if s.flag "method_jcb" then ["JCB"] else []) ++
  (if s.flag "method_mastercard" then ["MASTERCARD"] else []) ++
  (if s.flag "method_amex" then ["AMEX"] else [])

/-- MultisafepayCC.payment_method_wallets: wallet codes accumulated from the
wallet configuration flags, in source order. -/
def MultisafepayCC.payment_method_wallets (s : Settings) : List String :=
  (if s.flag "method_applepay" then ["APPLEPAY"] else []) ++
  (if s.flag "method_googlepay" then ["GOOGLEPAY"] else [])

/-- MultisafepayCC.is_enabled: the Python expression
self.settings.get("_enabled", as_type=bool) and self.payment_methods
is truthy exactly when _enabled is set and the brand list is nonempty. -/
def MultisafepayCC.is_enabled (s : Settings) : Bool :=
  s._enabled && !(MultisafepayCC.payment_methods s).isEmpty

/-- MultisafepayMethod.is_enabled for the simple (non-card) methods:
the master switch and the per-method flag. -/
def MultisafepayMethod.is_enabled (method : String) (s : Settings) : Bool :=
  s._enabled && s.flag ("method_" ++ method)

/- ------------------------------------------------------------------
   The method subclasses and their class attributes (payment.py 208-798)
   ------------------------------------------------------------------ -/

/-- One constructor per MultisafepayMethod subclass declared in payment.py. -/
inductive MethodClass where
  | bancontact
  | eprzelewy
  | eps
  | giropay
  | ideal
  | paydirekt
  | paypal
  | sepadebit
  | sofort
  | wero
  | creditcard
  deriving DecidableEq

/-- The method class attribute of each subclass. -/
def MethodClass.method : MethodClass → String
  | .bancontact => "bancontact"
  | .eprzelewy => "eprzelewy"
  | .eps => "eps"
  | .giropay => "giropay"
  | .ideal => "ideal"
  | .paydirekt => "paydirekt"
  | .paypal => "paypal"
  | .sepadebit => "sepadebit"
  | .sofort => "sofort"
  | .wero => "wero"
  | .creditcard => "creditcard"

/-- The refunds_allowed class attribute (default true on MultisafepayMethod,
overridden to false by EPS, giropay, iDEAL, SEPA Direct Debit and Sofort). -/
def refunds_allowed : MethodClass → Bool
  | .eps => false
  | .giropay => false
  | .ideal => false
  | .sepadebit => false
  | .sofort => false
  | _ => true

/-- The cancel_flow class attribute (default true on MultisafepayMethod,
overridden to false by EPS, giropay, iDEAL, PayPal, Sofort and Wero). -/
def cancel_flow : MethodClass → Bool
  | .eps => false
  | .giropay => false
  | .ideal => false
  | .paypal => false
  | .sofort => false
  | .wero => false
  | _ => true

/-- MultisafepayMethod.payment_refund_supported returns self.refunds_allowed. -/
def payment_refund_supported (m : MethodClass) (payment : OrderPayment) : Bool :=
  refunds_allowed m

/-- MultisafepayMethod.payment_partial_refund_supported returns
self.refunds_allowed as well. -/
def payment_partial_refund_supported (m : MethodClass) (payment : OrderPayment) : Bool :=
  refunds_allowed m

/-- Claim C10: for every payment-method class and every payment, partial
refunds are reported as supported exactly when full refunds are; both answers
are the refunds_allowed class flag. -/
theorem c10_partial_refund_iff_full (m : MethodClass) (payment : OrderPayment) :
    payment_partial_refund_supported m payment = payment_refund_supported m payment ∧
    payment_refund_supported m payment = refunds_allowed m :=
  ⟨rfl, rfl⟩

/- ------------------------------------------------------------------
   RetiredMethodMixin (payment.py 710-715) and the retired subclasses
   MultisafepayGiropay (741-747) and MultisafepaySofort (782-788)
   ------------------------------------------------------------------ -/

/-- RetiredMethodMixin.is_allowed: returns False for every request and total,
ignoring the settings held by self. -/
def RetiredMethodMixin.is_allowed (s : Settings) (request : HttpRequest)
    (total : Option ℚ) : Bool :=
  false

/-- RetiredMethodMixin.order_change_allowed: returns False for every order,
ignoring the settings held by self. -/
def RetiredMethodMixin.order_change_allowed (s : Settings) (order : Order) : Bool :=
  false

/-- MultisafepayGiropay lists RetiredMethodMixin first, so its is_allowed
resolves to the mixin implementation. -/
def MultisafepayGiropay.is_allowed (s : Settings) (request : HttpRequest)
    (total : Option ℚ) : Bool :=
  RetiredMethodMixin.is_allowed s request total

/-- MultisafepayGiropay.order_change_allowed via RetiredMethodMixin. -/
def MultisafepayGiropay.order_change_allowed (s : Settings) (order : Order) : Bool :=
  RetiredMethodMixin.order_change_allowed s order

/-- MultisafepaySofort lists RetiredMethodMixin first, so its is_allowed
resolves to the mixin implementation. -/
def MultisafepaySofort.is_allowed (s : Settings) (request : HttpRequest)
    (total : Option ℚ) : Bool :=
  RetiredMethodMixin.is_allowed s request total

/-- MultisafepaySofort.order_change_allowed via RetiredMethodMixin. -/
def MultisafepaySofort.order_change_allowed (s : Settings) (order : Order) : Bool :=
  RetiredMethodMixin.order_change_allowed s order

/-- Claim C6: for the retired methods Sofort and giropay, is_allowed and
order_change_allowed return false for every configuration (including those
with the method flag enabled), every request, total and order. -/
theorem c6_retired_never_allowed (s : Settings) (request : HttpRequest)
    (total : Option ℚ) (order : Order) :
    MultisafepaySofort.is_allowed s request total = false ∧
    MultisafepaySofort.order_change_allowed s order = false ∧
    MultisafepayGiropay.is_allowed s request total = false ∧
    MultisafepayGiropay.order_change_allowed s order = false :=
  ⟨rfl, rfl, rfl, rfl⟩

/- ------------------------------------------------------------------
   MultisafepayMethod.redirect (payment.py 631-654)
   ------------------------------------------------------------------ -/

/-- Result of MultisafepayMethod.redirect: either the url passed through
unchanged via str(), or the signed safe-redirect token produced with
django.core.signing.dumps, abstracted by the data it embeds (the destination
url and the order secret carried in the session payload). -/
inductive RedirectResult where
  | plain (s : String)
  | signedToken (url : Option String) (secret : String)

/-- Python str() applied to an optional string; str(None) is "None". -/
def pyStrOpt : Option String → String
  | none => "None"
  | some s => s

/-- The method keys routed through the intermediate signed redirect page. -/
def iframeRedirectMethods : List String := ["paypal", "sofort", "giropay", "paydirekt"]

/-- MultisafepayMethod.redirect: wrap the url in a signed token only when the
session carries the iframe_session flag and the method is one of the four
redirect methods; otherwise return str(url). -/
def redirect (method : String) (request : HttpRequest) (url : Option String) : RedirectResult :=
  if request.session.iframe_session && iframeRedirectMethods.contains method then
    .signedToken url request.session.payment_multisafepay_order_secret
  else
    .plain (pyStrOpt url)

/-- Claim C8: redirect returns the url unchanged as a string unless both the
iframe_session flag is set and the method is one of paypal, sofort, giropay,
paydirekt; exactly when both hold it produces the signed token embedding the
url and the order secret. -/
theorem c8_redirect_spec (method : String) (request : HttpRequest) (url : String) :
    (redirect method request (some url) = .plain url ↔
      (request.session.iframe_session && iframeRedirectMethods.contains method) = false) ∧
    (redirect method request (some url) =
        .signedToken (some url) request.session.payment_multisafepay_order_secret ↔
      (request.session.iframe_session && iframeRedirectMethods.contains method) = true) := by
  by_cases h : (request.session.iframe_session && iframeRedirectMethods.contains method) = true
  · simp [redirect, h, pyStrOpt]
  · simp only [Bool.not_eq_true] at h
    simp [redirect, h, pyStrOpt]

/-- Claim C8 witness: a signed-token case (paypal in an iframe session) and a
pass-through case (ideal in an iframe session). -/
theorem c8_witness :
    redirect "paypal" ⟨⟨true, "osecret"⟩⟩ (some "https://pay.example") =
      RedirectResult.signedToken (some "https://pay.example") "osecret" ∧
    redirect "ideal" ⟨⟨true, "osecret"⟩⟩ (some "https://pay.example") =
      RedirectResult.plain "https://pay.example" :=
  ⟨((c8_redirect_spec "paypal" ⟨⟨true, "osecret"⟩⟩ "https://pay.example").2).mpr rfl,
   ((c8_redirect_spec "ideal" ⟨⟨true, "osecret"⟩⟩ "https://pay.example").1).mpr rfl⟩

/-- Claim C7: get_locale returns the first two characters of the language
tag when they are "nl" or "en", returns "en" for every other input, and its
result is always a member of the set of the two supported locales. -/
theorem c7_get_locale_spec (language : String) :
    (language.take 2 = "nl" ∨ language.take 2 = "en" → get_locale language = language.take 2) ∧
    ((language.take 2 ≠ "nl" ∧ language.take 2 ≠ "en") → get_locale language = "en") ∧
    (get_locale language = "nl" ∨ get_locale language = "en") := by
  refine ⟨?_, ?_, ?_⟩
  · intro h
    rcases h with h | h <;> simp [get_locale, multisafepay_locales, List.contains, h]
  · rintro ⟨h1, h2⟩
    simp [get_locale, multisafepay_locales, List.contains, h1, h2]
  · by_cases h1 : language.take 2 = "nl"
    · simp [get_locale, multisafepay_locales, List.contains, h1]
    · by_cases h2 : language.take 2 = "en" <;>
        simp [get_locale, multisafepay_locales, List.contains, h1, h2]

/-- Claim C7 witness: the theorem applied to a supported and to an
unsupported language tag. -/
theorem c7_witness :
    get_locale "nl-informal" = "nl" ∧ get_locale "de" = "en" :=
  ⟨(c7_get_locale_spec "nl-informal").1 (Or.inl rfl),
   (c7_get_locale_spec "de").2.1 ⟨by decide, by decide⟩⟩

/-- Claim C1 counterexample: with the master switch on, every card-brand
flag off and the Apple Pay wallet flag on, the wallet list is nonempty yet
MultisafepayCC.is_enabled is false, contradicting the claim that a wallet
flag alone suffices. -/
theorem c1_counterexample :
    MultisafepayCC.payment_method_wallets ⟨true, fun k => k == "method_applepay"⟩ = ["APPLEPAY"] ∧
    MultisafepayCC.is_enabled ⟨true, fun k => k == "method_applepay"⟩ = false :=
  ⟨rfl, rfl⟩

/-- Claim C1 as amended: the credit-card method is enabled iff the global
_enabled flag is true and at least one card-brand flag (VISA, Diners, JCB,
Mastercard, Amex) is true; the wallet flags (Apple Pay, Google Pay) play no
role in is_enabled. -/
theorem c1_is_enabled_iff_brand_flag (s : Settings) :
    MultisafepayCC.is_enabled s =
      (s._enabled && (s.flag "method_visa" || s.flag "method_diners" || s.flag "method_jcb" ||
        s.flag "method_mastercard" || s.flag "method_amex")) := by
  simp only [MultisafepayCC.is_enabled, MultisafepayCC.payment_methods]
  split_ifs <;> simp_all

/- ------------------------------------------------------------------
   Amount codec (payment.py 519-525).  places stands for
   settings.CURRENCY_PLACES.get(self.event.currency, 2): the theorems
   quantify over it, covering every configured currency and the default.
   ------------------------------------------------------------------ -/

/-- Python int() applied to an exact rational value: truncation toward
zero. -/
def pyInt (q : ℚ) : ℤ := if 0 ≤ q then ⌊q⌋ else -⌊-q⌋

/-- MultisafepayMethod._decimal_to_int: int(amount * 10**places). The Decimal
product is exact, so only the final int() truncation matters. -/
def decimal_to_int (places : ℕ) (amount : ℚ) : ℤ := pyInt (amount * 10 ^ places)

/- ------------------------------------------------------------------
   Payment-page initialization body (payment.py 527-591)
   ------------------------------------------------------------------ -/

/-- The ASCII action of Python str.lower, character by character (the strings
it is applied to here, pretix order secrets, are ASCII). -/
def asciiLower (c : Char) : Char :=
  if 65 ≤ c.toNat ∧ c.toNat ≤ 90 then Char.ofNat (c.toNat + 32) else c

/-- Python secret.lower() on an ASCII string. -/
def pyLower (s : String) : String := ⟨s.data.map asciiLower⟩

/-- The fields of the payment-page initialization body built by
MultisafepayMethod._get_payment_page_init_body, with the two hash-free
notification URLs omitted and the SHA-1 hex digest abstracted by the digest
parameter of the builder. -/
structure InitBody where
  specVersion : String
  customerId : String
  requestId : String
  terminalId : String
  amountValue : String
  currencyCode : String
  orderId : String
  description : String
  payerNote : String
  paymentMethods : List String
  wallets : List String
  languageCode : String
  returnUrlHash : String

/-- MultisafepayMethod._get_payment_page_init_body: digest is the stand-in
for hashlib.sha1(...).hexdigest(); it is applied to the lowercased order
secret exactly as in the source. -/
def get_payment_page_init_body (digest : String → String)
    (specVersion customerId requestId terminalId : String)
    (places : ℕ) (currency eventSlug : String)
    (methods wallets : List String)
    (payment : OrderPayment) (order : Order) : InitBody :=
  ⟨specVersion, customerId, requestId, terminalId,
   toString (decimal_to_int places payment.amount), currency,
   eventSlug.toUpper ++ "-" ++ order.code ++ "-P-" ++ toString payment.localId,
   "Order " ++ eventSlug.toUpper ++ "-" ++ order.code,
   eventSlug.toUpper ++ "-" ++ order.code,
   methods, wallets,
   get_locale order.locale,
   digest (pyLower order.secret)⟩

/-- Two strings differ only in (ASCII) letter case: they have the same
length and corresponding characters agree after lowercasing. -/
def differOnlyInCase (s1 s2 : String) : Prop :=
  List.Forall₂ (fun a b => asciiLower a = asciiLower b) s1.data s2.data

/-- Helper: lowercasing maps case-variant character lists to the same list. -/
theorem map_asciiLower_eq {l1 l2 : List Char}
    (h : List.Forall₂ (fun a b => asciiLower a = asciiLower b) l1 l2) :
    l1.map asciiLower = l2.map asciiLower := by
  induction h with
  | nil => rfl
  | cons hab _ ih => simp [hab, ih]

/-- Helper: Python lower() is constant on case-variant strings. -/
theorem pyLower_eq_of_differOnlyInCase {s1 s2 : String} (h : differOnlyInCase s1 s2) :
    pyLower s1 = pyLower s2 :=
  congrArg String.mk (map_asciiLower_eq h)

/-- Claim C9: the return-URL integrity hash of the initialization body is the
digest of the lowercased order secret, so two orders whose secrets differ
only in letter case produce bodies with identical return-URL hashes. -/
theorem c9_hash_case_insensitive (digest : String → String)
    (specVersion customerId requestId terminalId : String)
    (places : ℕ) (currency eventSlug : String)
    (methods wallets : List String)
    (payment : OrderPayment) (code locale s1 s2 : String)
    (h : differOnlyInCase s1 s2) :
    (get_payment_page_init_body digest specVersion customerId requestId terminalId
      places currency eventSlug methods wallets payment ⟨code, s1, locale⟩).returnUrlHash =
    (get_payment_page_init_body digest specVersion customerId requestId terminalId
      places currency eventSlug methods wallets payment ⟨code, s2, locale⟩).returnUrlHash := by
  simp only [get_payment_page_init_body]
  exact congrArg digest (pyLower_eq_of_differOnlyInCase h)

/-- Claim C9 witness: the theorem applied at two concrete case-variant
secrets and an arbitrary but concrete digest function. -/
theorem c9_witness :
    (get_payment_page_init_body (fun s => s ++ "#d") "1.3" "c" "r" "t" 2 "EUR" "ev"
      ["IDEAL"] [] ⟨1, 1⟩ ⟨"ORD1", "AbC23xY", "de"⟩).returnUrlHash =
    (get_payment_page_init_body (fun s => s ++ "#d") "1.3" "c" "r" "t" 2 "EUR" "ev"
      ["IDEAL"] [] ⟨1, 1⟩ ⟨"ORD1", "aBc23Xy", "de"⟩).returnUrlHash :=
  c9_hash_case_insensitive (fun s => s ++ "#d") "1.3" "c" "r" "t" 2 "EUR" "ev"
    ["IDEAL"] [] ⟨1, 1⟩ "ORD1" "de" "AbC23xY" "aBc23Xy" (by unfold differOnlyInCase; decide)

/- ------------------------------------------------------------------
   shred_payment_info (payment.py 656-665) and the dict lemmas it needs
   ------------------------------------------------------------------ -/

/-- Helper: re-replacing a key in one entry keeps only the last value. -/
theorem replaceEntry_comp_self (k : String) (v w : Json) (p : String × Json) :
    replaceEntry k v (replaceEntry k w p) = replaceEntry k v p := by
  by_cases h : (p.1 == k) = true <;> simp [replaceEntry, h]

/-- Helper: replacements at distinct keys commute entrywise. -/
theorem replaceEntry_comm (k1 k2 : String) (v1 v2 : Json) (hne : k1 ≠ k2) (p : String × Json) :
    replaceEntry k1 v1 (replaceEntry k2 v2 p) = replaceEntry k2 v2 (replaceEntry k1 v1 p) := by
  by_cases h1 : (p.1 == k1) = true <;> by_cases h2 : (p.1 == k2) = true
  · have e1 : p.1 = k1 := by simpa using h1
    have e2 : p.1 = k2 := by simpa using h2
    exact absurd (e1 ▸ e2) hne
  · have e1 : p.1 = k1 := by simpa using h1
    simp [replaceEntry, h1, h2, e1, beq_iff_eq, hne, Ne.symm hne]
  · have e2 : p.1 = k2 := by simpa using h2
    simp [replaceEntry, h1, h2, e2, beq_iff_eq, hne, Ne.symm hne]
  · simp [replaceEntry, h1, h2]

/-- Helper: replacing an absent key is the identity map. -/
theorem map_replace_of_not_hasKey (fs : List (String × Json)) (k : String) (v : Json)
    (h : hasKey fs k = false) : fs.map (replaceEntry k v) = fs := by
  induction fs with
  | nil => rfl
  | cons p t ih =>
    simp only [hasKey, Bool.or_eq_false_iff] at h
    simp [replaceEntry, h.1, ih h.2]

/-- Helper: looking up a freshly appended key. -/
theorem lookupKey_append_self (fs : List (String × Json)) (k : String) (v : Json)
    (h : hasKey fs k = false) : lookupKey (fs ++ [(k, v)]) k = some v := by
  induction fs with
  | nil => simp [lookupKey]
  | cons p t ih =>
    simp only [hasKey, Bool.or_eq_false_iff] at h
    simp [lookupKey, h.1, ih h.2]

/-- Helper: appending a different key does not change a lookup. -/
theorem lookupKey_append_other (fs : List (String × Json)) (k : String) (v : Json)
    (k1 : String) (hne : k1 ≠ k) : lookupKey (fs ++ [(k, v)]) k1 = lookupKey fs k1 := by
  induction fs with
  | nil => simp [lookupKey, beq_iff_eq, Ne.symm hne]
  | cons p t ih => simp [lookupKey, ih]

/-- Helper: appending a different key does not change key presence. -/
theorem hasKey_append_other (fs : List (String × Json)) (k : String) (v : Json)
    (k1 : String) (hne : k1 ≠ k) : hasKey (fs ++ [(k, v)]) k1 = hasKey fs k1 := by
  induction fs with
  | nil => simp [hasKey, beq_iff_eq, Ne.symm hne]
  | cons p t ih => simp [hasKey, ih]

/-- Helper: in-place replacement preserves presence of the same key. -/
theorem hasKey_map_replace_self (fs : List (String × Json)) (k : String) (v : Json) :
    hasKey (fs.map (replaceEntry k v)) k = hasKey fs k := by
  induction fs with
  | nil => rfl
  | cons p t ih =>
    by_cases h : (p.1 == k) = true <;> simp [hasKey, replaceEntry, h, ih]

/-- Helper: in-place replacement preserves presence of other keys. -/
theorem hasKey_map_replace_other (fs : List (String × Json)) (k : String) (v : Json)
    (k1 : String) (hne : k1 ≠ k) :
    hasKey (fs.map (replaceEntry k v)) k1 = hasKey fs k1 := by
  induction fs with
  | nil => rfl
  | cons p t ih =>
    by_cases h : (p.1 == k) = true
    · have hp : p.1 = k := by simpa using h
      simp [hasKey, replaceEntry, h, ih, hp, beq_iff_eq, Ne.symm hne]
    · simp [hasKey, replaceEntry, h, ih]

/-- Helper: in-place replacement preserves lookups at other keys. -/
theorem lookupKey_map_replace_other (fs : List (String × Json)) (k : String) (v : Json)
    (k1 : String) (hne : k1 ≠ k) :
    lookupKey (fs.map (replaceEntry k v)) k1 = lookupKey fs k1 := by
  induction fs with
  | nil => rfl
  | cons p t ih =>
    by_cases h : (p.1 == k) = true
    · have hp : p.1 = k := by simpa using h
      simp [lookupKey, replaceEntry, h, ih, hp, beq_iff_eq, Ne.symm hne]
    · simp [lookupKey, replaceEntry, h, ih]

/-- Helper: a key just set is present. -/
theorem hasKey_setKey_self (fs : List (String × Json)) (k : String) (v : Json) :
    hasKey (setKey fs k v) k = true := by
  unfold setKey
  by_cases h : hasKey fs k = true
  · simp [h, hasKey_map_replace_self]
  · rw [if_neg h]
    induction fs with
    | nil => simp [hasKey]
    | cons p t ih => simp_all [hasKey]

/-- Helper: setting a key does not change presence of a different key. -/
theorem hasKey_setKey_other (fs : List (String × Json)) (k : String) (v : Json)
    (k1 : String) (hne : k1 ≠ k) : hasKey (setKey fs k v) k1 = hasKey fs k1 := by
  unfold setKey
  by_cases h : hasKey fs k = true
  · simp [h, hasKey_map_replace_other _ _ _ _ hne]
  · rw [if_neg h, hasKey_append_other _ _ _ _ hne]

/-- Helper: looking up a key just set yields the new value. -/
theorem lookupKey_setKey_self (fs : List (String × Json)) (k : String) (v : Json) :
    lookupKey (setKey fs k v) k = some v := by
  unfold setKey
  by_cases h : hasKey fs k = true
  · rw [if_pos h]
    induction fs with
    | nil => simp [hasKey] at h
    | cons p t ih =>
      by_cases hp : (p.1 == k) = true
      · simp [lookupKey, replaceEntry, hp]
      · simp_all [hasKey, lookupKey, replaceEntry, hp]
  · rw [if_neg h, lookupKey_append_self]
    simpa using h

/-- Helper: setting a key does not change lookups at a different key. -/
theorem lookupKey_setKey_other (fs : List (String × Json)) (k : String) (v : Json)
    (k1 : String) (hne : k1 ≠ k) : lookupKey (setKey fs k v) k1 = lookupKey fs k1 := by
  unfold setKey
  by_cases h : hasKey fs k = true
  · simp [h, lookupKey_map_replace_other _ _ _ _ hne]
  · rw [if_neg h, lookupKey_append_other _ _ _ _ hne]

/-- Helper: after setKey fs k v every k entry already holds v, so a further
in-place replacement with v is the identity. -/
theorem map_replace_setKey (fs : List (String × Json)) (k : String) (v : Json) :
    (setKey fs k v).map (replaceEntry k v) = setKey fs k v := by
  unfold setKey
  by_cases h : hasKey fs k = true
  · rw [if_pos h, List.map_map]
    exact List.map_congr_left fun p _ => replaceEntry_comp_self k v v p
  · rw [if_neg h, List.map_append,
      map_replace_of_not_hasKey _ _ _ (by simpa using h)]
    simp [replaceEntry]

/-- Helper: setting the same key twice keeps only the last value. -/
theorem setKey_setKey_self (fs : List (String × Json)) (k : String) (v w : Json) :
    setKey (setKey fs k v) k w = setKey fs k w := by
  have h1 : hasKey (setKey fs k v) k = true := hasKey_setKey_self fs k v
  show (if hasKey (setKey fs k v) k then _ else _) = _
  rw [if_pos h1]
  unfold setKey
  by_cases h : hasKey fs k = true
  · rw [if_pos h, if_pos h, List.map_map]
    exact List.map_congr_left fun p _ => replaceEntry_comp_self k w v p
  · rw [if_neg h, if_neg h, List.map_append,
      map_replace_of_not_hasKey _ _ _ (by simpa using h)]
    simp [replaceEntry]

/-- Helper: a replacement that fixes B also fixes setKey B k2 w at k1. -/
theorem map_replace_setKey_other (B : List (String × Json)) (k1 : String) (v : Json)
    (k2 : String) (w : Json) (hne : k1 ≠ k2) (hB : B.map (replaceEntry k1 v) = B) :
    (setKey B k2 w).map (replaceEntry k1 v) = setKey B k2 w := by
  unfold setKey
  by_cases h2 : hasKey B k2 = true
  · rw [if_pos h2, List.map_map]
    have hc : (replaceEntry k1 v ∘ replaceEntry k2 w) = (replaceEntry k2 w ∘ replaceEntry k1 v) := by
      funext p
      exact replaceEntry_comm k1 k2 v w hne p
    rw [hc, ← List.map_map, hB]
  · rw [if_neg h2, List.map_append, hB]
    simp [replaceEntry, beq_iff_eq, Ne.symm hne]

/-- Helper: re-setting k1 to the value it was just given, after an
intervening set of a different key, is the identity. -/
theorem setKey_absorb (fs : List (String × Json)) (k1 k2 : String) (v w : Json)
    (hne : k1 ≠ k2) :
    setKey (setKey (setKey fs k1 v) k2 w) k1 v = setKey (setKey fs k1 v) k2 w := by
  have hB : hasKey (setKey fs k1 v) k1 = true := hasKey_setKey_self fs k1 v
  have hBk : hasKey (setKey (setKey fs k1 v) k2 w) k1 = true := by
    rw [hasKey_setKey_other _ _ _ _ hne]; exact hB
  show (if hasKey (setKey (setKey fs k1 v) k2 w) k1 then _ else _) = _
  rw [if_pos hBk]
  exact map_replace_setKey_other _ _ _ _ _ hne (map_replace_setKey fs k1 v)

/-- The redaction glyph written by shred_payment_info.  The source file
stores the UTF-8 bytes C3 A2 E2 80 93 CB 86, a double-encoded block glyph,
reproduced here verbatim. -/
def shredGlyph : String := "â–ˆ"

/-- MultisafepayMethod.shred_payment_info on the parsed payment.info
snapshot.  none models a falsy obj.info (early return).  Snapshots on which
the Python code raises (a non-dict snapshot, or a details member without
.keys()) are mapped to Except.error. -/
def shred_payment_info (info : Option Json) : Except Unit (Option Json) :=
  match info with
  | none => Except.ok none
  | some (Json.obj fs) =>
    match lookupKey fs "details" with
    | none => Except.ok (some (Json.obj (setKey fs "_shredded" (Json.bool true))))
    | some (Json.obj dfs) =>
        Except.ok (some (Json.obj (setKey (setKey fs "details"
          (Json.obj (dfs.map fun p => (p.1, Json.str shredGlyph)))) "_shredded" (Json.bool true))))
    | some _ => Except.error ()
  | some _ => Except.error ()

/-- The snapshots on which the details redaction is defined: no details
member, or a details member that is itself an object. -/
def detailsShapeOk (fs : List (String × Json)) : Bool :=
  match lookupKey fs "details" with
  | none => true
  | some (Json.obj _) => true
  | some _ => false

/-- Claim C5 counterexample: a stored snapshot whose details member is a
number makes shred_payment_info raise (d["details"].keys() fails), so the
operation is not total over stored snapshots. -/
theorem c5_counterexample :
    shred_payment_info (some (Json.obj [("details", Json.num 5)])) = Except.error () := rfl

/-- Claim C5 as amended: restricted to object snapshots whose details
member, when present, is itself an object, shred_payment_info succeeds,
replaces every value of the details sub-object with the redaction glyph
while preserving its keys, sets _shredded to true, is idempotent (a second
application returns the same snapshot), and is a no-op without a stored
snapshot. -/
theorem c5_shred_amended (fs : List (String × Json)) (h : detailsShapeOk fs = true) :
    (∃ fs2, shred_payment_info (some (Json.obj fs)) = Except.ok (some (Json.obj fs2)) ∧
      lookupKey fs2 "_shredded" = some (Json.bool true) ∧
      (∀ dfs, lookupKey fs "details" = some (Json.obj dfs) →
        lookupKey fs2 "details" =
          some (Json.obj (dfs.map fun p => (p.1, Json.str shredGlyph)))) ∧
      shred_payment_info (some (Json.obj fs2)) =
        Except.ok (some (Json.obj fs2))) ∧
    shred_payment_info none = Except.ok none := by
  refine ⟨?_, rfl⟩
  unfold detailsShapeOk at h
  match hd : lookupKey fs "details" with
  | none =>
    refine ⟨setKey fs "_shredded" (Json.bool true), ?_, ?_, ?_, ?_⟩
    · simp [shred_payment_info, hd]
    · exact lookupKey_setKey_self fs "_shredded" (Json.bool true)
    · intro dfs hdfs
      simp at hdfs
    · have hd2 : lookupKey (setKey fs "_shredded" (Json.bool true)) "details" = none := by
        rw [lookupKey_setKey_other _ _ _ _ (by decide), hd]
      simp only [shred_payment_info, hd2]
      rw [setKey_setKey_self]
  | some (Json.obj dfs) =>
    refine ⟨setKey (setKey fs "details"
        (Json.obj (dfs.map fun p => (p.1, Json.str shredGlyph)))) "_shredded" (Json.bool true),
      ?_, ?_, ?_, ?_⟩
    · simp [shred_payment_info, hd]
    · exact lookupKey_setKey_self _ "_shredded" (Json.bool true)
    · intro dfs2 hdfs
      simp only [Option.some.injEq, Json.obj.injEq] at hdfs
      subst hdfs
      rw [lookupKey_setKey_other _ _ _ _ (by decide)]
      exact lookupKey_setKey_self _ "details" _
    · have hd2 : lookupKey (setKey (setKey fs "details"
          (Json.obj (dfs.map fun p => (p.1, Json.str shredGlyph)))) "_shredded" (Json.bool true))
            "details" =
          some (Json.obj (dfs.map fun p => (p.1, Json.str shredGlyph))) := by
        rw [lookupKey_setKey_other _ _ _ _ (by decide)]
        exact lookupKey_setKey_self _ "details" _
      have hmm2 : (dfs.map fun p => (p.1, Json.str shredGlyph)).map
          (fun p => (p.1, Json.str shredGlyph)) = dfs.map fun p => (p.1, Json.str shredGlyph) := by
        rw [List.map_map]
        exact List.map_congr_left fun p _ => rfl
      simp only [shred_payment_info, hd2, hmm2]
      rw [setKey_absorb fs "details" "_shredded"
          (Json.obj (dfs.map fun p => (p.1, Json.str shredGlyph))) (Json.bool true) (by decide),
        setKey_setKey_self]
  | some (Json.str s) => rw [hd] at h; simp at h
  | some (Json.num n) => rw [hd] at h; simp at h
  | some (Json.bool b) => rw [hd] at h; simp at h
  | some Json.null => rw [hd] at h; simp at h
  | some (Json.arr xs) => rw [hd] at h; simp at h

/-- Claim C5 witness: the amended theorem applied to a concrete snapshot
with a details object. -/
theorem c5_witness :
    detailsShapeOk [("details", Json.obj [("card", Json.str "4111")]),
      ("Status", Json.str "OK")] = true ∧
    ((∃ fs2, shred_payment_info (some (Json.obj [("details", Json.obj [("card", Json.str "4111")]),
        ("Status", Json.str "OK")])) = Except.ok (some (Json.obj fs2)) ∧
      lookupKey fs2 "_shredded" = some (Json.bool true) ∧
      (∀ dfs, lookupKey [("details", Json.obj [("card", Json.str "4111")]),
          ("Status", Json.str "OK")] "details" = some (Json.obj dfs) →
        lookupKey fs2 "details" =
          some (Json.obj (dfs.map fun p => (p.1, Json.str shredGlyph)))) ∧
      shred_payment_info (some (Json.obj fs2)) =
        Except.ok (some (Json.obj fs2))) ∧
    shred_payment_info none = Except.ok none) :=
  ⟨rfl, c5_shred_amended [("details", Json.obj [("card", Json.str "4111")]),
    ("Status", Json.str "OK")] rfl⟩

/- ------------------------------------------------------------------
   execute_payment (payment.py 593-629)
   ------------------------------------------------------------------ -/

/-- Host payment states touched by the plugin. -/
inductive PaymentState where
  | created
  | pending
  | confirmed
  | failed
  | canceled
  deriving DecidableEq

/-- An HTTP response from the gateway: status code, the JSON body if
req.json() parses, and the raw text. -/
structure HttpResponse where
  status : ℕ
  body : Option Json
  text : String

/-- Outcome of one gateway call: a response, or a transport failure
(requests.RequestException with its message, no response at all). -/
inductive GatewayResult where
  | response (r : HttpResponse)
  | transportError (detail : String)

/-- How execute_payment returns to its caller. -/
inductive ExecOutcome where
  | raised (msg : String)
  | returned (r : RedirectResult)
  | crashed

/-- The generic communication-trouble message raised at checkout,
independent of any gateway response body. -/
def genericCommunicationError : String :=
  "We had trouble communicating with MultiSafepay. Please try again and get in touch with us if this problem persists."

/-- The synthetic snapshot written when no structured body is available. -/
def errorSnapshot (detail : String) : Json :=
  Json.obj [("error", Json.bool true), ("detail", Json.str detail)]

/-- MultisafepayMethod.execute_payment, as a function of the gateway
interaction result.  Returns the persisted snapshot, the payment state set
by the call, and the control-flow outcome.  requests.raise_for_status
raises HTTPError exactly for status codes in [400, 600); a parse failure of
a successful response escapes the try block (crashed); on success the
snapshot is stored, the state becomes created, and redirect is called with
the session secret just stored and data.get("RedirectUrl"). -/
def execute_payment (method : String) (request : HttpRequest) (order_secret : String)
    (gw : GatewayResult) : Option Json × Option PaymentState × ExecOutcome :=
  match gw with
  | .transportError detail =>
      (some (errorSnapshot detail), some .failed, .raised genericCommunicationError)
  | .response r =>
      if 400 ≤ r.status ∧ r.status < 600 then
        match r.body with
        | some b => (some b, some .failed, .raised genericCommunicationError)
        | none => (some (errorSnapshot r.text), some .failed, .raised genericCommunicationError)
      else
        match r.body with
        | none => (none, none, .crashed)
        | some (Json.obj fs) =>
            (some (Json.obj fs), some .created,
             .returned (redirect method ⟨⟨request.session.iframe_session, order_secret⟩⟩
               (match lookupKey fs "RedirectUrl" with
                | some (Json.str u) => some u
                | _ => none)))
        | some data => (some data, some .created, .crashed)

/-- Claim C4 counterexample: a 300 response (no redirect followed, not an
HTTPError for raise_for_status) with a JSON-parseable body leaves the
payment in state created, not failed, although 300 is not a 2xx status. -/
theorem c4_counterexample :
    (execute_payment "ideal" ⟨⟨false, ""⟩⟩ "osecret"
      (.response ⟨300, some (Json.obj [("Reason", Json.str "multiple")]), "choices"⟩)).2.1 =
      some PaymentState.created ∧
    some PaymentState.created ≠ some PaymentState.failed :=
  ⟨rfl, by decide⟩

/-- Claim C4 as amended: for a response with status in [400, 600) and a
JSON-parseable body, execute_payment persists that body as the snapshot,
marks the payment failed and raises the fixed generic communication-trouble
message (which does not depend on the body); on transport failure it
persists the synthetic error/detail snapshot and fails identically. -/
theorem c4_execute_payment_failure (method : String) (request : HttpRequest)
    (secret : String) (r : HttpResponse) (body : Json) (detail : String)
    (h4 : 400 ≤ r.status) (h6 : r.status < 600) (hb : r.body = some body) :
    execute_payment method request secret (.response r) =
      (some body, some PaymentState.failed, .raised genericCommunicationError) ∧
    execute_payment method request secret (.transportError detail) =
      (some (errorSnapshot detail), some PaymentState.failed,
        .raised genericCommunicationError) := by
  constructor
  · show (if 400 ≤ r.status ∧ r.status < 600 then _ else _) = _
    rw [if_pos ⟨h4, h6⟩, hb]
  · rfl

/-- Claim C4 witness: the amended theorem at a concrete 500 response and a
concrete transport failure. -/
theorem c4_witness :
    execute_payment "ideal" ⟨⟨false, "x"⟩⟩ "osecret"
      (.response ⟨500, some (Json.obj [("ErrorName", Json.str "INTERNAL")]), "ise"⟩) =
      (some (Json.obj [("ErrorName", Json.str "INTERNAL")]), some PaymentState.failed,
        .raised genericCommunicationError) ∧
    execute_payment "ideal" ⟨⟨false, "x"⟩⟩ "osecret" (.transportError "timeout") =
      (some (errorSnapshot "timeout"), some PaymentState.failed,
        .raised genericCommunicationError) :=
  c4_execute_payment_failure "ideal" ⟨⟨false, "x"⟩⟩ "osecret"
    ⟨500, some (Json.obj [("ErrorName", Json.str "INTERNAL")]), "ise"⟩
    (Json.obj [("ErrorName", Json.str "INTERNAL")]) "timeout"
    (by norm_num) (by norm_num) rfl

/- ------------------------------------------------------------------
   execute_refund (payment.py 312-473, the commented-out implementation
   the claim refers to), embedded with an explicit log of the gateway
   endpoints called, in order.
   ------------------------------------------------------------------ -/

/-- Gateway endpoint strings used by execute_refund. -/
def cancelEndpoint : String := "Payment/v1/Transaction/Cancel"

/-- The capture-refund endpoint. -/
def refundEndpoint : String := "Payment/v1/Transaction/Refund"

/-- The follow-up capture endpoint. -/
def captureEndpoint : String := "Payment/v1/Transaction/Capture"

/-- The benign cancel error codes that fall through to the standard refund
path instead of failing. -/
def benignCancelCodes : List String :=
  ["ACTION_NOT_SUPPORTED", "TRANSACTION_ALREADY_CAPTURED", "TRANSACTION_IN_WRONG_STATE"]

/-- Which user-facing error the HTTPError handler raises: the gateway
ProcessorMessage or ErrorMessage when present in the persisted error
snapshot, else the generic communication-trouble message. -/
inductive RefundFailMsg where
  | processor (v : Json)
  | errMessage (v : Json)
  | genericComm

/-- The observable result of execute_refund. -/
inductive RefundOutcome where
  | done
  | savedPending
  | failed (m : RefundFailMsg)
  | notCapturedError
  | crashed

/-- Python membership test (k in j) on a parsed JSON value: key test for
dicts, element test for lists, substring test for strings, TypeError
(none) otherwise. -/
def pyContains (j : Json) (k : String) : Option Bool :=
  match j with
  | .obj fs => some (hasKey fs k)
  | .arr xs => some (xs.any fun x => match x with | .str s => s == k | _ => false)
  | .str s => some ((s.splitOn k).length != 1)
  | _ => none

/-- The except-HTTPError handler of execute_refund: persist the parsed body
(or the synthetic error/detail snapshot), fail the refund, and pick the
user-facing message from ProcessorMessage / ErrorMessage / generic. -/
def refundHttpErrorOutcome (r : HttpResponse) : RefundOutcome :=
  let info := r.body.getD (errorSnapshot r.text)
  match pyContains info "ProcessorMessage" with
  | none => .crashed
  | some true =>
    match info with
    | .obj fs => .failed (.processor ((lookupKey fs "ProcessorMessage").getD Json.null))
    | _ => .crashed
  | some false =>
    match pyContains info "ErrorMessage" with
    | none => .crashed
    | some true =>
      match info with
      | .obj fs => .failed (.errMessage ((lookupKey fs "ErrorMessage").getD Json.null))
      | _ => .crashed
    | some false => .failed .genericComm

/-- The standard capture-refund path of execute_refund, entered either
directly or after a benign cancel failure: check CaptureId, post the Refund
call (gateway call number n), then on an AUTHORIZED transaction post one
follow-up Capture call. -/
def refundStandardFlow (d : List (String × Json)) (gw : ℕ → GatewayResult)
    (n : ℕ) (acc : List String) : RefundOutcome × List String :=
  if (lookupKey d "CaptureId").isNone then (.notCapturedError, acc)
  else
    match gw n with
    | .transportError _ => (.failed .genericComm, acc ++ [refundEndpoint])
    | .response r =>
      if 400 ≤ r.status ∧ r.status < 600 then
        (refundHttpErrorOutcome r, acc ++ [refundEndpoint])
      else
        match r.body with
        | none => (.failed .genericComm, acc ++ [refundEndpoint])
        | some (Json.obj dataFs) =>
          match lookupKey dataFs "Transaction" with
          | some (Json.obj t) =>
            match lookupKey t "Status" with
            | some (Json.str "CAPTURED") => (.done, acc ++ [refundEndpoint])
            | some (Json.str "AUTHORIZED") =>
              (match gw (n + 1) with
               | .transportError _ =>
                 (.failed .genericComm, acc ++ [refundEndpoint, captureEndpoint])
               | .response r2 =>
                 if 400 ≤ r2.status ∧ r2.status < 600 then
                   (refundHttpErrorOutcome r2, acc ++ [refundEndpoint, captureEndpoint])
                 else
                   match r2.body with
                   | none => (.failed .genericComm, acc ++ [refundEndpoint, captureEndpoint])
                   | some (Json.obj d2) =>
                     match lookupKey d2 "Status" with
                     | some (Json.str "CAPTURED") =>
                       (.done, acc ++ [refundEndpoint, captureEndpoint])
                     | some _ => (.savedPending, acc ++ [refundEndpoint, captureEndpoint])
                     | none => (.crashed, acc ++ [refundEndpoint, captureEndpoint])
                   | some _ => (.crashed, acc ++ [refundEndpoint, captureEndpoint]))
            | _ => (.savedPending, acc ++ [refundEndpoint])
          | some _ => (.crashed, acc ++ [refundEndpoint])
          | none => (.crashed, acc ++ [refundEndpoint])
        | some _ => (.crashed, acc ++ [refundEndpoint])

/-- The commented-out MultisafepayMethod.execute_refund: when the method has
a cancel flow and the refund is for the full payment amount, try the Cancel
endpoint first (gateway call 0); a 200 completes the refund, a response
whose body carries a benign ErrorName falls through to the standard path,
a 4xx/5xx fails, and any other non-200 status falls through after a no-op
raise_for_status. -/
def execute_refund (cflow : Bool) (refundAmount paymentAmount : ℚ)
    (d : List (String × Json)) (gw : ℕ → GatewayResult) : RefundOutcome × List String :=
  if cflow ∧ refundAmount = paymentAmount then
    if (lookupKey d "Id").isNone then (.notCapturedError, [])
    else
      match gw 0 with
      | .transportError _ => (.failed .genericComm, [cancelEndpoint])
      | .response r =>
        if r.status = 200 then (.done, [cancelEndpoint])
        else
          match r.body with
          | none =>
            if 400 ≤ r.status ∧ r.status < 600 then (refundHttpErrorOutcome r, [cancelEndpoint])
            else refundStandardFlow d gw 1 [cancelEndpoint]
          | some (Json.obj errFs) =>
            match lookupKey errFs "ErrorName" with
            | some (Json.str c) =>
              if c ∈ benignCancelCodes then refundStandardFlow d gw 1 [cancelEndpoint]
              else if 400 ≤ r.status ∧ r.status < 600 then
                (refundHttpErrorOutcome r, [cancelEndpoint])
              else refundStandardFlow d gw 1 [cancelEndpoint]
            | _ =>
              if 400 ≤ r.status ∧ r.status < 600 then (refundHttpErrorOutcome r, [cancelEndpoint])
              else refundStandardFlow d gw 1 [cancelEndpoint]
          | some _ => (.crashed, [cancelEndpoint])
  else refundStandardFlow d gw 0 []

/-- Helper: whatever the gateway answers, the standard flow issues exactly
one Refund call (possibly followed by one Capture call) when a CaptureId is
present. -/
theorem refundStandardFlow_calls (d : List (String × Json)) (gw : ℕ → GatewayResult)
    (n : ℕ) (acc : List String) (hcap : (lookupKey d "CaptureId").isNone = false) :
    (refundStandardFlow d gw n acc).2 = acc ++ [refundEndpoint] ∨
    (refundStandardFlow d gw n acc).2 = acc ++ [refundEndpoint, captureEndpoint] := by
  unfold refundStandardFlow
  simp only [hcap, Bool.false_eq_true, if_false]
  repeat' split
  all_goals simp

/-- Claim C3: on a cancel-flow-capable method, for a full-amount refund of a
captured payment (Id and CaptureId present), execute_refund calls the Cancel
endpoint first, and when that call returns a non-200 response whose body
carries one of the benign error codes (TRANSACTION_ALREADY_CAPTURED,
ACTION_NOT_SUPPORTED, TRANSACTION_IN_WRONG_STATE), it issues exactly one
subsequent capture-refund call instead of failing at the cancel stage. -/
theorem c3_cancel_fallback
    (m : MethodClass) (refundAmount paymentAmount : ℚ)
    (d : List (String × Json)) (gw : ℕ → GatewayResult)
    (r : HttpResponse) (errFs : List (String × Json)) (c : String)
    (hflow : cancel_flow m = true)
    (hamt : refundAmount = paymentAmount)
    (hid : ∃ v, lookupKey d "Id" = some v)
    (hcap : ∃ v, lookupKey d "CaptureId" = some v)
    (hgw : gw 0 = .response r)
    (hstatus : r.status ≠ 200)
    (hbody : r.body = some (Json.obj errFs))
    (hcode : lookupKey errFs "ErrorName" = some (Json.str c))
    (hbenign : c ∈ benignCancelCodes) :
    (execute_refund (cancel_flow m) refundAmount paymentAmount d gw).2.take 2 =
      [cancelEndpoint, refundEndpoint] ∧
    (execute_refund (cancel_flow m) refundAmount paymentAmount d gw).2.count refundEndpoint = 1 := by
  obtain ⟨vid, hvid⟩ := hid
  obtain ⟨vcap, hvcap⟩ := hcap
  have hidn : (lookupKey d "Id").isNone = false := by rw [hvid]; rfl
  have hcapn : (lookupKey d "CaptureId").isNone = false := by rw [hvcap]; rfl
  have hred : execute_refund (cancel_flow m) refundAmount paymentAmount d gw =
      refundStandardFlow d gw 1 [cancelEndpoint] := by
    unfold execute_refund
    rw [if_pos ⟨hflow, hamt⟩]
    simp only [hidn, Bool.false_eq_true, if_false, hgw]
    rw [if_neg hstatus]
    simp only [hbody, hcode]
    rw [if_pos hbenign]
  rw [hred]
  rcases refundStandardFlow_calls d gw 1 [cancelEndpoint] hcapn with h | h <;> rw [h]
  · exact ⟨rfl, by decide⟩
  · exact ⟨rfl, by decide⟩

/-- Concrete payment snapshot for the claim C3 witness. -/
def c3WitnessInfo : List (String × Json) :=
  [("Id", Json.str "tx1"), ("CaptureId", Json.str "cap1")]

/-- Concrete gateway behaviour for the claim C3 witness: the cancel call
fails with TRANSACTION_ALREADY_CAPTURED, every later call succeeds. -/
def c3WitnessGateway : ℕ → GatewayResult
  | 0 => .response ⟨402, some (Json.obj
      [("ErrorName", Json.str "TRANSACTION_ALREADY_CAPTURED")]), "payment required"⟩
  | _ => .response ⟨200, some (Json.obj
      [("Transaction", Json.obj [("Status", Json.str "CAPTURED")])]), "ok"⟩

/-- Claim C3 witness: the theorem at a concrete captured payment whose
cancel call reports TRANSACTION_ALREADY_CAPTURED. -/
theorem c3_witness :
    (execute_refund (cancel_flow MethodClass.bancontact) 5 5
      c3WitnessInfo c3WitnessGateway).2.take 2 = [cancelEndpoint, refundEndpoint] ∧
    (execute_refund (cancel_flow MethodClass.bancontact) 5 5
      c3WitnessInfo c3WitnessGateway).2.count refundEndpoint = 1 :=
  c3_cancel_fallback MethodClass.bancontact 5 5 c3WitnessInfo c3WitnessGateway
    ⟨402, some (Json.obj [("ErrorName", Json.str "TRANSACTION_ALREADY_CAPTURED")]),
      "payment required"⟩
    [("ErrorName", Json.str "TRANSACTION_ALREADY_CAPTURED")] "TRANSACTION_ALREADY_CAPTURED"
    rfl rfl ⟨Json.str "tx1", rfl⟩ ⟨Json.str "cap1", rfl⟩ rfl (by decide) rfl rfl (by decide)

/- ------------------------------------------------------------------
   _amount_to_decimal (payment.py 519-521): float(cents) / (10**places)
   goes through Python binary64 floats.  fl53 below is IEEE-754 binary64
   rounding (round to nearest, ties to even, unbounded exponent: overflow
   and subnormals cannot occur at the magnitudes involved) of an exact
   rational.  float(cents) is fl53 of the integer, 10**places converts to
   fl53 of the power, and the float division is correctly rounded, hence
   one further fl53 of the exact quotient.
   ------------------------------------------------------------------ -/

/-- Round to the nearest integer, ties to even (the IEEE-754 default). -/
def roundHalfEven (q : ℚ) : ℤ :=
  if q - ⌊q⌋ < 1/2 then ⌊q⌋
  else if 1/2 < q - ⌊q⌋ then ⌊q⌋ + 1
  else if Even ⌊q⌋ then ⌊q⌋ else ⌊q⌋ + 1

/-- Binary64 rounding of an exact rational: scale into the mantissa range
with 2 to the power 52 minus the binary logarithm, round half to even, and
scale back. -/
def fl53 (q : ℚ) : ℚ :=
  if q = 0 then 0
  else
    (roundHalfEven (q * 2 ^ (52 - Int.log 2 |q|)) : ℚ) / 2 ^ (52 - Int.log 2 |q|)

/-- Python round-half-away-from-zero to an integer, the rounding used by
decimal.ROUND_HALF_UP. -/
def halfUpZ (q : ℚ) : ℤ := if 0 ≤ q then ⌊q + 1/2⌋ else -⌊-q + 1/2⌋

/-- Modelled from the spec: the host (pretix) round_decimal quantizes to the
decimal places of the currency with decimal.ROUND_HALF_UP; pretix itself is
outside this repository.  places stands for
settings.CURRENCY_PLACES.get(currency, 2). -/
def round_decimal (places : ℕ) (q : ℚ) : ℚ :=
  (halfUpZ (q * 10 ^ places) : ℚ) / 10 ^ places

/-- MultisafepayMethod._amount_to_decimal:
round_decimal(float(cents) / (10**places), currency). -/
def amount_to_decimal (places : ℕ) (cents : ℤ) : ℚ :=
  round_decimal places (fl53 (fl53 (cents : ℚ) / fl53 ((10:ℚ) ^ places)))

/-- Helper: round half to even moves a value by at most one half. -/
theorem abs_roundHalfEven_sub_le (q : ℚ) : |(roundHalfEven q : ℚ) - q| ≤ 1/2 := by
  have hfl : (⌊q⌋ : ℚ) ≤ q := Int.floor_le q
  have hfu : q - ⌊q⌋ < 1 := by
    have := Int.lt_floor_add_one q
    linarith
  unfold roundHalfEven
  by_cases h1 : q - ⌊q⌋ < 1/2
  · rw [if_pos h1, abs_sub_comm, abs_of_nonneg (by linarith)]
    linarith
  · rw [if_neg h1]
    by_cases h2 : 1/2 < q - ⌊q⌋
    · rw [if_pos h2]
      push_cast
      rw [abs_of_nonneg (by linarith)]
      linarith
    · rw [if_neg h2]
      have heq : q - ⌊q⌋ = 1/2 := le_antisymm (not_lt.1 h2) (not_lt.1 h1)
      by_cases h3 : Even ⌊q⌋
      · rw [if_pos h3, abs_sub_comm, abs_of_nonneg (by linarith)]
        linarith
      · rw [if_neg h3]
        push_cast
        rw [abs_of_nonneg (by linarith)]
        linarith

/-- Helper: rounding fixes integers. -/
theorem roundHalfEven_intCast (z : ℤ) : roundHalfEven (z : ℚ) = z := by
  unfold roundHalfEven
  rw [Int.floor_intCast]
  norm_num

/-- Helper: the relative error of binary64 rounding is at most 2 to the
power minus 53. -/
theorem fl53_err (q : ℚ) : |fl53 q - q| ≤ |q| * ((2:ℚ) ^ (53:ℕ))⁻¹ := by
  by_cases hq : q = 0
  · simp [fl53, hq]
  · unfold fl53
    rw [if_neg hq]
    set e := Int.log 2 |q| with he
    set k : ℤ := 52 - e with hk
    have h2k : (0:ℚ) < 2 ^ k := zpow_pos (by norm_num) k
    have hqe : (roundHalfEven (q * 2 ^ k) : ℚ) / 2 ^ k - q
        = ((roundHalfEven (q * 2 ^ k) : ℚ) - q * 2 ^ k) / 2 ^ k := by
      field_simp
      ring
    rw [hqe, abs_div, abs_of_pos h2k, div_le_iff₀ h2k]
    have hb := abs_roundHalfEven_sub_le (q * 2 ^ k)
    have habs : 0 < |q| := abs_pos.2 hq
    have hlow : ((2:ℕ):ℚ) ^ e ≤ |q| := by
      rw [he]
      exact Int.zpow_log_le_self (by norm_num) habs
    have hcast : ((2:ℕ):ℚ) = (2:ℚ) := by norm_num
    rw [hcast] at hlow
    refine le_trans hb ?_
    have hstep : (2:ℚ) ^ e * ((2:ℚ) ^ (53:ℕ))⁻¹ * 2 ^ k = 1/2 := by
      have h1 : ((2:ℚ) ^ (53:ℕ))⁻¹ = (2:ℚ) ^ (-(53:ℤ)) := by
        norm_num
      rw [h1, ← zpow_add₀ (by norm_num : (2:ℚ) ≠ 0), ← zpow_add₀ (by norm_num : (2:ℚ) ≠ 0)]
      have : e + -(53:ℤ) + k = -1 := by omega
      rw [this]
      norm_num
    calc (1:ℚ)/2 = (2:ℚ) ^ e * ((2:ℚ) ^ (53:ℕ))⁻¹ * 2 ^ k := hstep.symm
    _ ≤ |q| * ((2:ℚ) ^ (53:ℕ))⁻¹ * 2 ^ k := by
        apply mul_le_mul_of_nonneg_right _ h2k.le
        apply mul_le_mul_of_nonneg_right hlow (by positivity)

/-- Helper: integers below 2 to the 53rd are exactly representable. -/
theorem fl53_int_exact (z : ℤ) (hz : |z| < 2 ^ 53) : fl53 (z : ℚ) = z := by
  by_cases h0 : z = 0
  · simp [fl53, h0]
  · have hq : ((z:ℚ)) ≠ 0 := Int.cast_ne_zero.2 h0
    unfold fl53
    rw [if_neg hq]
    have habs : (0:ℚ) < |(z:ℚ)| := abs_pos.2 hq
    have hlt : |(z:ℚ)| < ((2:ℕ):ℚ) ^ (53:ℤ) := by
      push_cast
      rw [← Int.cast_abs]
      exact_mod_cast hz
    have hloglt : Int.log 2 |(z:ℚ)| < 53 :=
      (Int.lt_zpow_iff_log_lt (by norm_num) habs).1 hlt
    have hk0 : 0 ≤ 52 - Int.log 2 |(z:ℚ)| := by omega
    set k : ℤ := 52 - Int.log 2 |(z:ℚ)| with hkdef
    obtain ⟨n, hn⟩ := Int.eq_ofNat_of_zero_le hk0
    have hzpow : (2:ℚ) ^ k = ((2 ^ n : ℤ) : ℚ) := by
      rw [hn]
      push_cast
      rw [zpow_natCast]
    have hy : (z:ℚ) * 2 ^ k = ((z * 2 ^ n : ℤ) : ℚ) := by
      rw [hzpow]
      push_cast
      ring
    rw [hy, roundHalfEven_intCast, hzpow]
    push_cast
    have h2n : ((2:ℚ) ^ n) ≠ 0 := by positivity
    field_simp

/-- Helper: Python int() fixes integers. -/
theorem pyInt_intCast (z : ℤ) : pyInt (z : ℚ) = z := by
  unfold pyInt
  by_cases h : (0:ℚ) ≤ (z:ℚ)
  · rw [if_pos h, Int.floor_intCast]
  · rw [if_neg h]
    have : -(z:ℚ) = ((-z : ℤ) : ℚ) := by push_cast; ring
    rw [this, Int.floor_intCast]
    ring

/-- Helper: half-up rounding recovers an integer perturbed by less than one
half. -/
theorem halfUpZ_add_small (m : ℤ) (d : ℚ) (hd : |d| < 1/2) :
    halfUpZ ((m : ℚ) + d) = m := by
  have hd1 : -(1/2) < d := neg_lt_of_abs_lt hd
  have hd2 : d < 1/2 := lt_of_abs_lt hd
  unfold halfUpZ
  by_cases h : (0:ℚ) ≤ (m:ℚ) + d
  · rw [if_pos h]
    have : (m:ℚ) + d + 1/2 = (m:ℚ) + (d + 1/2) := by ring
    rw [this, Int.floor_int_add]
    have hz : ⌊d + 1/2⌋ = 0 := by
      rw [Int.floor_eq_zero_iff]
      constructor
      · linarith
      · linarith
    omega
  · rw [if_neg h]
    have : -((m:ℚ) + d) + 1/2 = ((-m : ℤ) : ℚ) + (1/2 - d) := by push_cast; ring
    rw [this, Int.floor_int_add]
    have hz : ⌊1/2 - d⌋ = 0 := by
      rw [Int.floor_eq_zero_iff]
      constructor
      · linarith
      · linarith
    omega

/-- Claim C2 as amended: the minor-unit round trip is the identity for every
amount x with exactly places decimal digits whose minor-unit value c has
absolute value below 2 to the 52nd (every realistic monetary amount), for
every places whose power of ten is exactly representable in binary64 (true
for all configured currencies).  It fails for larger amounts, where binary64
cannot carry the minor-unit integer. -/
theorem c2_roundtrip (places : ℕ) (x : ℚ) (c : ℤ)
    (hdiv : fl53 ((10:ℚ) ^ places) = (10:ℚ) ^ places)
    (hx : x * 10 ^ places = (c : ℚ))
    (hc : |c| < 2 ^ 52) :
    amount_to_decimal places (decimal_to_int places x) = x := by
  have h10 : (0:ℚ) < 10 ^ places := by positivity
  have hdec : decimal_to_int places x = c := by
    unfold decimal_to_int
    rw [hx, pyInt_intCast]
  rw [hdec]
  have hcint : fl53 ((c:ℤ) : ℚ) = (c:ℚ) := fl53_int_exact c (lt_trans hc (by norm_num))
  unfold amount_to_decimal
  rw [hcint, hdiv]
  have hq : (c:ℚ) / 10 ^ places = x := by
    rw [← hx]
    field_simp
  rw [hq]
  have herr := fl53_err x
  have hxc : |x| * 10 ^ places = |(c:ℚ)| := by
    rw [← hx, abs_mul, abs_of_pos h10]
  have hcq : |(c:ℚ)| < 2 ^ 52 := by
    rw [← Int.cast_abs]
    exact_mod_cast hc
  have hdelta : |fl53 x * 10 ^ places - (c:ℚ)| < 1/2 := by
    have h1 : fl53 x * 10 ^ places - (c:ℚ) = (fl53 x - x) * 10 ^ places := by
      rw [← hx]; ring
    rw [h1, abs_mul, abs_of_pos h10]
    calc |fl53 x - x| * 10 ^ places
        ≤ (|x| * ((2:ℚ) ^ (53:ℕ))⁻¹) * 10 ^ places :=
          mul_le_mul_of_nonneg_right herr h10.le
      _ = |(c:ℚ)| * ((2:ℚ) ^ (53:ℕ))⁻¹ := by rw [← hxc]; ring
      _ < (2:ℚ) ^ (52:ℕ) * ((2:ℚ) ^ (53:ℕ))⁻¹ := by
          apply mul_lt_mul_of_pos_right _ (by positivity)
          exact_mod_cast hcq
      _ = 1/2 := by norm_num
  unfold round_decimal
  have h2 : fl53 x * 10 ^ places = (c:ℚ) + (fl53 x * 10 ^ places - (c:ℚ)) := by ring
  rw [h2, halfUpZ_add_small c _ hdelta, hq]

/-- Helper: pin the binary logarithm of a concrete rational. -/
theorem log2_eq_of (q : ℚ) (e : ℤ) (h0 : 0 < q)
    (h1 : ((2:ℕ):ℚ) ^ e ≤ q) (h2 : q < ((2:ℕ):ℚ) ^ (e + 1)) :
    Int.log 2 q = e := by
  have ha := (Int.zpow_le_iff_le_log (by norm_num) h0).1 h1
  have hb := (Int.lt_zpow_iff_log_lt (by norm_num) h0).1 h2
  omega

/-- Helper: evaluate fl53 once the logarithm is known. -/
theorem fl53_eval (q : ℚ) (e : ℤ) (hq : q ≠ 0) (hlog : Int.log 2 |q| = e) :
    fl53 q = (roundHalfEven (q * 2 ^ (52 - e)) : ℚ) / 2 ^ (52 - e) := by
  unfold fl53
  rw [if_neg hq, hlog]

/-- Helper: float(9007199254740993) rounds the tie down to the even
neighbour 9007199254740992. -/
theorem cx_step1 : fl53 ((9007199254740993 : ℚ)) = 9007199254740992 := by
  have hlog : Int.log 2 |(9007199254740993 : ℚ)| = 53 := by
    rw [abs_of_pos (by norm_num)]
    apply log2_eq_of _ 53 (by norm_num) (by norm_num) (by norm_num)
  rw [fl53_eval _ 53 (by norm_num) hlog]
  have hfl : ⌊(9007199254740993 : ℚ) * 2 ^ (52 - 53 : ℤ)⌋ = 4503599627370496 := by
    norm_num
  unfold roundHalfEven
  rw [hfl]
  norm_num
  rw [if_pos (show Even (4503599627370496:ℤ) by decide)]
  norm_num

/-- Helper: 100.0 is exact in binary64. -/
theorem cx_step2 : fl53 ((10:ℚ) ^ (2:ℕ)) = (10:ℚ) ^ (2:ℕ) := by
  have h : ((10:ℚ) ^ (2:ℕ)) = ((100 : ℤ) : ℚ) := by norm_num
  rw [h, fl53_int_exact 100 (by norm_num)]

/-- Helper: the float quotient 9007199254740992 / 100 rounds up to
5764607523034235 divided by 64. -/
theorem cx_step3 : fl53 ((9007199254740992 : ℚ) / (10:ℚ) ^ (2:ℕ)) =
    (5764607523034235 : ℚ) / 64 := by
  have hq : (9007199254740992 : ℚ) / (10:ℚ) ^ (2:ℕ) = (2251799813685248 : ℚ) / 25 := by
    norm_num
  rw [hq]
  have hlog : Int.log 2 |(2251799813685248 : ℚ) / 25| = 46 := by
    rw [abs_of_pos (by norm_num)]
    apply log2_eq_of _ 46 (by norm_num) (by norm_num) (by norm_num)
  rw [fl53_eval _ 46 (by norm_num) hlog]
  have hfl : ⌊(2251799813685248 : ℚ) / 25 * 2 ^ (52 - 46 : ℤ)⌋ = 5764607523034234 := by
    norm_num
  unfold roundHalfEven
  rw [hfl]
  norm_num

/-- Helper: quantizing the perturbed float at two places lands on
90071992547409.92, not .93. -/
theorem cx_step4 : round_decimal 2 ((5764607523034235 : ℚ) / 64) =
    (9007199254740992 : ℚ) / 100 := by
  unfold round_decimal halfUpZ
  have h1 : ((5764607523034235 : ℚ) / 64) * 10 ^ (2:ℕ) = (144115188075855875 : ℚ) / 16 := by
    norm_num
  rw [h1]
  rw [if_pos (by norm_num : (0:ℚ) ≤ (144115188075855875 : ℚ) / 16)]
  have h2 : (144115188075855875 : ℚ) / 16 + 1/2 = (144115188075855883 : ℚ) / 16 := by
    norm_num
  rw [h2]
  have h3 : ⌊(144115188075855883 : ℚ) / 16⌋ = 9007199254740992 := by norm_num
  rw [h3]
  norm_num

/-- Claim C2 counterexample: the amount 90071992547409.93 has exactly two
decimal places (in a currency with places = 2, the default), but the round
trip through minor units returns 90071992547409.92: float(9007199254740993)
already loses the final unit. -/
theorem c2_counterexample :
    amount_to_decimal 2 (decimal_to_int 2 ((9007199254740993 : ℚ) / 100)) ≠
      (9007199254740993 : ℚ) / 100 := by
  have hdec : decimal_to_int 2 ((9007199254740993 : ℚ) / 100) = 9007199254740993 := by
    unfold decimal_to_int
    have : (9007199254740993 : ℚ) / 100 * 10 ^ (2:ℕ) = ((9007199254740993 : ℤ) : ℚ) := by
      norm_num
    rw [this, pyInt_intCast]
  rw [hdec]
  unfold amount_to_decimal
  have hcast : (((9007199254740993 : ℤ)) : ℚ) = (9007199254740993 : ℚ) := by norm_num
  rw [hcast, cx_step1, cx_step2, cx_step3, cx_step4]
  norm_num

/-- Claim C2 witness: the amended round trip at 1.23 with two decimal
places. -/
theorem c2_witness :
    fl53 ((10:ℚ) ^ (2:ℕ)) = (10:ℚ) ^ (2:ℕ) ∧
    (123 : ℚ) / 100 * 10 ^ (2:ℕ) = ((123 : ℤ) : ℚ) ∧
    |(123:ℤ)| < 2 ^ 52 ∧
    amount_to_decimal 2 (decimal_to_int 2 ((123 : ℚ) / 100)) = (123 : ℚ) / 100 :=
  ⟨cx_step2, by norm_num, by norm_num,
   c2_roundtrip 2 ((123:ℚ)/100) 123 cx_step2 (by norm_num) (by norm_num)⟩

end PretixMultisafepay
